import Mathlib

/-!
Shallow embedding of `discover_server` from
`apps/scoreboard-windows/src-tauri/src/main.rs` (clubscore-turbo).

The Rust function performs one bounded-time mDNS discovery:

```rust
fn discover_server(timeout_ms: Option<u64>) -> Result<Option<DiscoveryResult>, String> {
    let mdns = ServiceDaemon::new().map_err(|err| err.to_string())?;
    let receiver = mdns.browse("_clubscore._tcp.local.").map_err(|err| err.to_string())?;
    let timeout = Duration::from_millis(timeout_ms.unwrap_or(2500));
    let deadline = Instant::now() + timeout;
    let mut found: Option<DiscoveryResult> = None;
    while Instant::now() < deadline {
        match receiver.recv_timeout(Duration::from_millis(300)) {
            Ok(ServiceEvent::ServiceResolved(info)) => {
                let host = info.get_addresses().iter().next()
                    .map(|addr| addr.to_string())
                    .unwrap_or_else(|| info.get_hostname().to_string());
                found = Some(DiscoveryResult { host, port: info.get_port() });
                break;
            }
            Ok(_) => {}
            Err(_) => {}
        }
    }
    let _ = mdns.shutdown();
    Ok(found)
}
```

Time is modelled as a `Nat` count of milliseconds.  The external mDNS
subsystem (the `mdns_sd` crate) is modelled by an `Env`: the outcome of
`ServiceDaemon::new()`, the outcome of `browse`, the clock value at the
moment the deadline is computed, and the sequence of outcomes that
successive `receiver.recv_timeout(300)` calls would deliver, each paired
with the wall-clock milliseconds that call consumes (the crossbeam
`recv_timeout(300ms)` contract caps each such duration at 300 ms, which
appears below as a hypothesis where a claim needs it).

The embedded function additionally exposes, as observations of the run:
whether control flow reached the `let _ = mdns.shutdown();` statement,
the clock value at return, and the portion of the event stream that was
never consumed.
-/

namespace ClubScore

/-- An IP address as the code uses it: only its textual rendering
(`addr.to_string()`) is ever consumed. -/
structure IpAddr where
  render : String
deriving DecidableEq, Repr

/-- The fields of `mdns_sd::ServiceInfo` that `discover_server` reads:
`get_addresses()` (in iteration order), `get_hostname()`, `get_port()`. -/
structure ServiceInfo where
  addresses : List IpAddr
  hostname  : String
  port      : Nat
deriving DecidableEq, Repr

/-- The variants of `mdns_sd::ServiceEvent`. Only `ServiceResolved`
carries data the function consumes. -/
inductive ServiceEvent where
  | SearchStarted (ty : String)
  | ServiceFound (ty : String) (fullname : String)
  | ServiceResolved (info : ServiceInfo)
  | ServiceRemoved (ty : String) (fullname : String)
  | SearchStopped (ty : String)
deriving DecidableEq, Repr

/-- The two ways `recv_timeout` can fail (crossbeam `RecvTimeoutError`). -/
inductive RecvErr where
  | timeout
  | disconnected
deriving DecidableEq, Repr

/-- The outcome of one `receiver.recv_timeout(Duration::from_millis(300))`
call. -/
inductive RecvOutcome where
  | ok (e : ServiceEvent)
  | err (e : RecvErr)
deriving DecidableEq, Repr

/-- One step of the event stream: the milliseconds the `recv_timeout`
call consumed, and what it returned. -/
abbrev RecvStep := Nat × RecvOutcome

/-- The struct serialized back to the UI. -/
structure DiscoveryResult where
  host : String
  port : Nat
deriving DecidableEq, Repr

/-- The external world of one `discover_server` call. -/
structure Env where
  /-- Outcome of `ServiceDaemon::new().map_err(|err| err.to_string())`. -/
  daemonInit : Except String Unit
  /-- Outcome of `mdns.browse("_clubscore._tcp.local.").map_err(...)`. -/
  browse : Except String Unit
  /-- Value of `Instant::now()` (ms) when the deadline is computed. -/
  startTime : Nat
  /-- Outcomes of successive `recv_timeout(300ms)` calls. -/
  trace : List RecvStep
  /-- Whether `mdns.shutdown()` would succeed (its result is discarded). -/
  shutdownOk : Bool

/-- Everything observable about one run of `discover_server`. -/
structure CallResult where
  /-- The Rust return value `Result<Option<DiscoveryResult>, String>`. -/
  ret : Except String (Option DiscoveryResult)
  /-- Whether control flow reached `let _ = mdns.shutdown();` (line 45):
  the early returns produced by the two `?` operators skip it. -/
  shutdownCalled : Bool
  /-- Clock value (ms) when the function returns. -/
  finishTime : Nat
  /-- The suffix of the event stream never consumed by this call. -/
  leftover : List RecvStep

/-- The host extraction on a `ServiceResolved(info)` event:
`info.get_addresses().iter().next().map(|addr| addr.to_string())
  .unwrap_or_else(|| info.get_hostname().to_string())`. -/
def resolvedHost (info : ServiceInfo) : String :=
  match info.addresses.head? with
  | some addr => addr.render
  | none => info.hostname

/-- The `while Instant::now() < deadline { match receiver.recv_timeout(...) }`
loop.  Returns the value of `found`, the clock at loop exit, and the
unconsumed suffix of the stream.  If the stream is exhausted the loop
exits with `found` still `None`. -/
def pollLoop (deadline : Nat) : Nat → List RecvStep →
    Option DiscoveryResult × Nat × List RecvStep
  | now, trace =>
    if now < deadline then
      match trace with
      | [] => (none, now, [])
      | (d, o) :: rest =>
        match o with
        | .ok (.ServiceResolved info) =>
            (some ⟨resolvedHost info, info.port⟩, now + d, rest)
        | .ok _ => pollLoop deadline (now + d) rest
        | .err _ => pollLoop deadline (now + d) rest
    else
      (none, now, trace)

/-- The embedded `discover_server`.  The two `match`es on `daemonInit` and
`browse` are the two `?` operators; on their error paths the function
returns before reaching `let _ = mdns.shutdown();`, hence
`shutdownCalled := false` there.  On the fall-through path the shutdown
statement runs and its result is discarded (`let _ = ...`), so the
returned value never depends on `env.shutdownOk`. -/
def discover_server (env : Env) (timeout_ms : Option Nat) : CallResult :=
  match env.daemonInit with
  | .error err => ⟨.error err, false, env.startTime, env.trace⟩
  | .ok _ =>
    match env.browse with
    | .error err => ⟨.error err, false, env.startTime, env.trace⟩
    | .ok _ =>
      let timeout := timeout_ms.getD 2500
      let deadline := env.startTime + timeout
      let out := pollLoop deadline env.startTime env.trace
      ⟨.ok out.1, true, out.2.1, out.2.2⟩

/-- Whether a receive outcome is a `ServiceResolved` event. -/
def RecvOutcome.isResolved : RecvOutcome → Bool
  | .ok (.ServiceResolved _) => true
  | _ => false

/-- Whether a receive outcome is an `Err(_)` from `recv_timeout`. -/
def RecvOutcome.isErr : RecvOutcome → Bool
  | .err _ => true
  | _ => false

/-- Milliseconds consumed by a prefix of the event stream. -/
def elapsed (l : List RecvStep) : Nat := (l.map Prod.fst).sum

/-- Default step used with `List.getD` (an arbitrary value; `getD` is
only consulted at in-range indices). -/
def padStep : RecvStep := (0, .err .timeout)

/-! ### Concrete instance data used to exercise the theorems -/

/-- A responder advertising one address. -/
def infoAddr : ServiceInfo := ⟨[⟨"10.0.0.5"⟩], "scoreboard.local.", 4123⟩

/-- A responder advertising an empty address list, only a hostname. -/
def infoHost : ServiceInfo := ⟨[], "scoreboard.local", 4123⟩

/-- A run where the second event resolves a hostname-only responder. -/
def envResolved : Env :=
  ⟨.ok (), .ok (), 0,
   [(100, .ok (.SearchStarted "_clubscore._tcp.local.")),
    (150, .ok (.ServiceResolved infoHost))], true⟩

/-- A run where two responders resolve, `infoAddr` first. -/
def envTwoResolved : Env :=
  ⟨.ok (), .ok (), 0,
   [(100, .ok (.ServiceFound "_clubscore._tcp.local." "a._clubscore._tcp.local.")),
    (50, .ok (.ServiceResolved infoAddr)),
    (10, .ok (.ServiceResolved infoHost))], true⟩

/-- A run where a responder resolves only after the 2500 ms deadline. -/
def envLate : Env :=
  ⟨.ok (), .ok (), 0,
   List.replicate 9 (300, .err .timeout) ++ [(300, .ok (.ServiceResolved infoAddr))],
   true⟩

/-- A run with capped waits and no resolution, starting at clock 1000. -/
def envCap : Env :=
  ⟨.ok (), .ok (), 1000,
   [(300, .err .timeout),
    (200, .ok (.SearchStarted "_clubscore._tcp.local.")),
    (300, .err .disconnected)], true⟩

/-- Same event stream as `envShiftB` but a different clock origin. -/
def envShiftA : Env := ⟨.ok (), .ok (), 500, [(300, .err .timeout)], true⟩

/-- Same event stream as `envShiftA` but a different clock origin and a
failing shutdown. -/
def envShiftB : Env := ⟨.ok (), .ok (), 9999, [(300, .err .timeout)], false⟩

/-- A run with a `ServiceResolved` event ready immediately. -/
def envReady : Env := ⟨.ok (), .ok (), 42, [(0, .ok (.ServiceResolved infoAddr))], true⟩

/-- A run in which every receive fails (timeouts and a disconnect). -/
def envAllErr : Env :=
  ⟨.ok (), .ok (), 0,
   [(300, .err .timeout), (300, .err .disconnected), (300, .err .timeout)], true⟩

theorem elapsed_nil : elapsed [] = 0 := rfl

theorem elapsed_cons (p : RecvStep) (l : List RecvStep) :
    elapsed (p :: l) = p.1 + elapsed l := by
  simp [elapsed]

/-! ### Unfolding lemmas for the polling loop -/

theorem pollLoop_stop (deadline now : Nat) (trace : List RecvStep)
    (h : ¬ now < deadline) :
    pollLoop deadline now trace = (none, now, trace) := by
  unfold pollLoop
  simp [h]

theorem pollLoop_nil (deadline now : Nat) (h : now < deadline) :
    pollLoop deadline now [] = (none, now, []) := by
  unfold pollLoop
  simp [h]

theorem pollLoop_resolved (deadline now d : Nat) (info : ServiceInfo)
    (rest : List RecvStep) (h : now < deadline) :
    pollLoop deadline now ((d, .ok (.ServiceResolved info)) :: rest)
      = (some ⟨resolvedHost info, info.port⟩, now + d, rest) := by
  unfold pollLoop
  simp [h]

theorem pollLoop_skip (deadline now d : Nat) (o : RecvOutcome)
    (rest : List RecvStep) (h : now < deadline)
    (hnr : o.isResolved = false) :
    pollLoop deadline now ((d, o) :: rest)
      = pollLoop deadline (now + d) rest := by
  match o with
  | .ok (.ServiceResolved info) => simp [RecvOutcome.isResolved] at hnr
  | .ok (.SearchStarted ty) =>
      conv_lhs => unfold pollLoop
      simp [h]
  | .ok (.ServiceFound ty fn) =>
      conv_lhs => unfold pollLoop
      simp [h]
  | .ok (.ServiceRemoved ty fn) =>
      conv_lhs => unfold pollLoop
      simp [h]
  | .ok (.SearchStopped ty) =>
      conv_lhs => unfold pollLoop
      simp [h]
  | .err e =>
      conv_lhs => unfold pollLoop
      simp [h]

theorem isResolved_iff (o : RecvOutcome) :
    o.isResolved = true ↔ ∃ info, o = .ok (.ServiceResolved info) := by
  match o with
  | .ok (.ServiceResolved info) => simp [RecvOutcome.isResolved]
  | .ok (.SearchStarted ty) => simp [RecvOutcome.isResolved]
  | .ok (.ServiceFound ty fn) => simp [RecvOutcome.isResolved]
  | .ok (.ServiceRemoved ty fn) => simp [RecvOutcome.isResolved]
  | .ok (.SearchStopped ty) => simp [RecvOutcome.isResolved]
  | .err e => simp [RecvOutcome.isResolved]

theorem isResolved_of_isErr (o : RecvOutcome) (h : o.isErr = true) :
    o.isResolved = false := by
  match o with
  | .ok e => simp [RecvOutcome.isErr] at h
  | .err e => rfl

/-! ### The first `ServiceResolved` event reached before the deadline wins -/

/-- If the stream starts with a block `pre` of non-`Resolved` outcomes, every
deadline check up to and including the one guarding the `Resolved` entry
succeeds, then the loop consumes exactly `pre` and the `Resolved` entry,
stores the extracted pair, and breaks. -/
theorem pollLoop_first_resolved (deadline : Nat) (info : ServiceInfo) (d : Nat)
    (rest : List RecvStep) (pre : List RecvStep) (now : Nat)
    (hpre : ∀ p ∈ pre, p.2.isResolved = false)
    (hreach : ∀ k, k ≤ pre.length → now + elapsed (pre.take k) < deadline) :
    pollLoop deadline now (pre ++ (d, .ok (.ServiceResolved info)) :: rest)
      = (some ⟨resolvedHost info, info.port⟩, now + elapsed pre + d, rest) := by
  induction pre generalizing now with
  | nil =>
      have h0 : now < deadline := by simpa [elapsed] using hreach 0 (by simp)
      simpa [elapsed] using pollLoop_resolved deadline now d info rest h0
  | cons p pre ih =>
      obtain ⟨d0, o0⟩ := p
      have h0 : now < deadline := by simpa [elapsed] using hreach 0 (by simp)
      rw [List.cons_append,
        pollLoop_skip deadline now d0 o0 _ h0 (hpre (d0, o0) (List.mem_cons_self _ _)),
        ih (now + d0) (fun p hp => hpre p (List.mem_cons_of_mem _ hp)) ?_]
      · simp [elapsed_cons]
        omega
      · intro k hk
        have := hreach (k + 1) (by simpa using Nat.succ_le_succ hk)
        simpa [List.take_succ_cons, elapsed_cons, Nat.add_assoc] using this

/-! ### No `ServiceResolved` event before the deadline means no result -/

/-- If every `ServiceResolved` entry of the stream sits at an index whose
deadline check already fails, the loop produces no result. -/
theorem pollLoop_none_of_late_resolved (deadline : Nat) (trace : List RecvStep)
    (now : Nat)
    (h : ∀ k, k < trace.length → (trace.getD k padStep).2.isResolved = true →
          deadline ≤ now + elapsed (trace.take k)) :
    (pollLoop deadline now trace).1 = none := by
  induction trace generalizing now with
  | nil =>
      by_cases h0 : now < deadline
      · simp [pollLoop_nil deadline now h0]
      · simp [pollLoop_stop deadline now [] h0]
  | cons p trace ih =>
      obtain ⟨d0, o0⟩ := p
      by_cases h0 : now < deadline
      · have hr : o0.isResolved = false := by
          by_contra hc
          have hc' : o0.isResolved = true := by
            cases hb : o0.isResolved
            · exact absurd hb hc
            · rfl
          have := h 0 (by simp) (by simpa [List.getD] using hc')
          simp [elapsed] at this
          omega
        rw [pollLoop_skip deadline now d0 o0 trace h0 hr]
        apply ih
        intro k hk hres
        have := h (k + 1) (by simpa using Nat.succ_lt_succ hk)
          (by simpa [List.getD_cons_succ] using hres)
        simpa [List.take_succ_cons, elapsed_cons, Nat.add_assoc] using this
      · simp [pollLoop_stop deadline now _ h0]

/-! ### Time bound of the loop -/

/-- If every wait consumes at most the 300 ms cap and the clock is still
below `deadline + 300`, the loop exits with the clock below
`deadline + 300`. -/
theorem pollLoop_time_bound (deadline : Nat) (trace : List RecvStep)
    (now : Nat) (hcap : ∀ p ∈ trace, p.1 ≤ 300)
    (hnow : now < deadline + 300) :
    (pollLoop deadline now trace).2.1 < deadline + 300 := by
  induction trace generalizing now with
  | nil =>
      by_cases h0 : now < deadline
      · simpa [pollLoop_nil deadline now h0] using hnow
      · simpa [pollLoop_stop deadline now [] h0] using hnow
  | cons p trace ih =>
      obtain ⟨d0, o0⟩ := p
      by_cases h0 : now < deadline
      · have hd : d0 ≤ 300 := hcap (d0, o0) (by simp)
        cases hr : o0.isResolved with
        | true =>
            obtain ⟨info, rfl⟩ := (isResolved_iff o0).mp hr
            rw [pollLoop_resolved deadline now d0 info trace h0]
            simp
            omega
        | false =>
            rw [pollLoop_skip deadline now d0 o0 trace h0 hr]
            exact ih (now + d0) (fun p hp => hcap p (by simp [hp])) (by omega)
      · simpa [pollLoop_stop deadline now _ h0] using hnow

/-! ### Translation invariance in the clock origin -/

/-- Shifting both the clock and the deadline by the same amount changes
nothing but the reported exit time. -/
theorem pollLoop_shift (c : Nat) (trace : List RecvStep) :
    ∀ deadline now : Nat,
    pollLoop (deadline + c) (now + c) trace
      = ((pollLoop deadline now trace).1,
         (pollLoop deadline now trace).2.1 + c,
         (pollLoop deadline now trace).2.2) := by
  induction trace with
  | nil =>
      intro deadline now
      by_cases h0 : now < deadline
      · rw [pollLoop_nil deadline now h0,
          pollLoop_nil (deadline + c) (now + c) (by omega)]
      · rw [pollLoop_stop deadline now [] h0,
          pollLoop_stop (deadline + c) (now + c) [] (by omega)]
  | cons p trace ih =>
      intro deadline now
      obtain ⟨d0, o0⟩ := p
      by_cases h0 : now < deadline
      · cases hr : o0.isResolved with
        | true =>
            obtain ⟨info, rfl⟩ := (isResolved_iff o0).mp hr
            rw [pollLoop_resolved deadline now d0 info trace h0,
              pollLoop_resolved (deadline + c) (now + c) d0 info trace (by omega)]
            simp
            omega
        | false =>
            rw [pollLoop_skip deadline now d0 o0 trace h0 hr,
              pollLoop_skip (deadline + c) (now + c) d0 o0 trace (by omega) hr,
              Nat.add_right_comm now c d0]
            exact ih deadline (now + d0)
      · rw [pollLoop_stop deadline now _ h0,
          pollLoop_stop (deadline + c) (now + c) _ (by omega)]

/-! ### Unfolding `discover_server` on the successful initialization path -/

theorem discover_server_ok (env : Env) (t : Option Nat)
    (h1 : env.daemonInit = .ok ()) (h2 : env.browse = .ok ()) :
    discover_server env t
      = ⟨.ok (pollLoop (env.startTime + t.getD 2500) env.startTime env.trace).1,
         true,
         (pollLoop (env.startTime + t.getD 2500) env.startTime env.trace).2.1,
         (pollLoop (env.startTime + t.getD 2500) env.startTime env.trace).2.2⟩ := by
  unfold discover_server
  rw [h1, h2]

theorem getD_mem : ∀ (l : List RecvStep) (k : Nat), k < l.length →
    l.getD k padStep ∈ l
  | p :: l, 0, _ => by
      simp [List.getD]
  | p :: l, k + 1, h => by
      rw [List.getD_cons_succ]
      exact List.mem_cons_of_mem _ (getD_mem l k (by simpa using h))

/-! ### The claims -/

/-- C1: the claim says that when the browse query fails after the daemon
was successfully created, `discover_server` still shuts the daemon down
before returning the `BrowseError`.  Evaluating the embedded function on
exactly that input shows the opposite: the `?` operator on the `browse`
call returns before control reaches `let _ = mdns.shutdown();`, so the
error is returned with the session resource never released
(`shutdownCalled = false`). -/
theorem claim_C1_browse_error_skips_shutdown :
    discover_server ⟨.ok (), .error "browse failed", 0, [], true⟩ (some 2500)
      = ⟨.error "browse failed", false, 0, []⟩ := rfl

/-- C2: for every `ServiceResolved` event consumed before the deadline
(daemon and browse succeeded, the preceding events resolve nothing, and
every deadline check up to the resolving receive passes), the call
returns a present result whose host is the first address of the
instance's address list rendered as text — or the instance's hostname
when the list is empty — and whose port is the advertised port. -/
theorem claim_C2_resolved_event_result (env : Env) (t : Option Nat)
    (pre rest : List RecvStep) (d : Nat) (info : ServiceInfo)
    (h1 : env.daemonInit = .ok ()) (h2 : env.browse = .ok ())
    (htrace : env.trace = pre ++ (d, .ok (.ServiceResolved info)) :: rest)
    (hpre : ∀ p ∈ pre, p.2.isResolved = false)
    (hreach : ∀ k, k ≤ pre.length →
      env.startTime + elapsed (pre.take k) < env.startTime + t.getD 2500) :
    (discover_server env t).ret
      = .ok (some { host := (match info.addresses with
                             | [] => info.hostname
                             | a :: _ => a.render),
                    port := info.port }) := by
  rw [discover_server_ok env t h1 h2]
  rw [htrace, pollLoop_first_resolved _ info d rest pre _ hpre hreach]
  cases ha : info.addresses with
  | nil => simp [resolvedHost, ha]
  | cons a l => simp [resolvedHost, ha]

theorem claim_C2_witness :
    envResolved.daemonInit = .ok () ∧
    envResolved.browse = .ok () ∧
    envResolved.trace
      = [(100, .ok (.SearchStarted "_clubscore._tcp.local."))]
        ++ (150, .ok (.ServiceResolved infoHost)) :: [] ∧
    (∀ p ∈ [((100 : Nat), RecvOutcome.ok (.SearchStarted "_clubscore._tcp.local."))],
        p.2.isResolved = false) ∧
    (∀ k, k ≤ ([((100 : Nat),
          RecvOutcome.ok (.SearchStarted "_clubscore._tcp.local."))]).length →
        envResolved.startTime
          + elapsed (([((100 : Nat),
              RecvOutcome.ok (.SearchStarted "_clubscore._tcp.local."))]).take k)
          < envResolved.startTime + (some 2500 : Option Nat).getD 2500) ∧
    (discover_server envResolved (some 2500)).ret
      = .ok (some ⟨"scoreboard.local", 4123⟩) :=
  ⟨rfl, rfl, rfl, by decide, by decide,
   claim_C2_resolved_event_result envResolved (some 2500)
     [(100, .ok (.SearchStarted "_clubscore._tcp.local."))] [] 150 infoHost
     rfl rfl rfl (by decide) (by decide)⟩

/-- C3: the first `ServiceResolved` event observed before the deadline
determines the result and breaks the loop at once: the stream suffix
after it is never consumed, and the call produces (at most) this one
result. -/
theorem claim_C3_first_resolved_terminates (env : Env) (t : Option Nat)
    (pre rest : List RecvStep) (d : Nat) (info : ServiceInfo)
    (h1 : env.daemonInit = .ok ()) (h2 : env.browse = .ok ())
    (htrace : env.trace = pre ++ (d, .ok (.ServiceResolved info)) :: rest)
    (hpre : ∀ p ∈ pre, p.2.isResolved = false)
    (hreach : ∀ k, k ≤ pre.length →
      env.startTime + elapsed (pre.take k) < env.startTime + t.getD 2500) :
    (discover_server env t).ret = .ok (some ⟨resolvedHost info, info.port⟩) ∧
    (discover_server env t).leftover = rest := by
  rw [discover_server_ok env t h1 h2]
  rw [htrace, pollLoop_first_resolved _ info d rest pre _ hpre hreach]
  exact ⟨rfl, rfl⟩

theorem claim_C3_witness :
    envTwoResolved.daemonInit = .ok () ∧
    envTwoResolved.browse = .ok () ∧
    envTwoResolved.trace
      = [(100, .ok (.ServiceFound "_clubscore._tcp.local." "a._clubscore._tcp.local."))]
        ++ (50, .ok (.ServiceResolved infoAddr))
        :: [(10, .ok (.ServiceResolved infoHost))] ∧
    (∀ p ∈ [((100 : Nat), RecvOutcome.ok
        (.ServiceFound "_clubscore._tcp.local." "a._clubscore._tcp.local."))],
        p.2.isResolved = false) ∧
    (∀ k, k ≤ ([((100 : Nat), RecvOutcome.ok
          (.ServiceFound "_clubscore._tcp.local." "a._clubscore._tcp.local."))]).length →
        envTwoResolved.startTime
          + elapsed (([((100 : Nat), RecvOutcome.ok
              (.ServiceFound "_clubscore._tcp.local." "a._clubscore._tcp.local."))]).take k)
          < envTwoResolved.startTime + (some 2500 : Option Nat).getD 2500) ∧
    ((discover_server envTwoResolved (some 2500)).ret
        = .ok (some ⟨"10.0.0.5", 4123⟩) ∧
     (discover_server envTwoResolved (some 2500)).leftover
        = [(10, .ok (.ServiceResolved infoHost))]) :=
  ⟨rfl, rfl, rfl, by decide, by decide,
   claim_C3_first_resolved_terminates envTwoResolved (some 2500)
     [(100, .ok (.ServiceFound "_clubscore._tcp.local." "a._clubscore._tcp.local."))]
     [(10, .ok (.ServiceResolved infoHost))] 50 infoAddr
     rfl rfl rfl (by decide) (by decide)⟩

/-- C4: when no `ServiceResolved` event is delivered before the deadline
(every resolving entry of the stream, if any, sits at an index whose
deadline check already fails), the call returns `Ok(None)` — a
successful absent result, never an error. -/
theorem claim_C4_no_resolved_absent (env : Env) (t : Option Nat)
    (h1 : env.daemonInit = .ok ()) (h2 : env.browse = .ok ())
    (hlate : ∀ k, k < env.trace.length →
      (env.trace.getD k padStep).2.isResolved = true →
      env.startTime + t.getD 2500 ≤ env.startTime + elapsed (env.trace.take k)) :
    (discover_server env t).ret = .ok none := by
  rw [discover_server_ok env t h1 h2]
  have := pollLoop_none_of_late_resolved (env.startTime + t.getD 2500)
    env.trace env.startTime hlate
  simp [this]

theorem claim_C4_witness :
    envLate.daemonInit = .ok () ∧
    envLate.browse = .ok () ∧
    (∀ k, k < envLate.trace.length →
      (envLate.trace.getD k padStep).2.isResolved = true →
      envLate.startTime + (some 2500 : Option Nat).getD 2500
        ≤ envLate.startTime + elapsed (envLate.trace.take k)) ∧
    (discover_server envLate (some 2500)).ret = .ok none :=
  ⟨rfl, rfl, by decide,
   claim_C4_no_resolved_absent envLate (some 2500) rfl rfl (by decide)⟩

/-- C5: the call errors exactly when daemon creation or the browse call
fails; once both succeed, nothing that happens in the event-consumption
phase (unexpected event kinds, empty address lists, receive failures)
can produce an error. -/
theorem claim_C5_error_iff_init_failure (env : Env) (t : Option Nat) :
    (∃ e, (discover_server env t).ret = .error e)
      ↔ (env.daemonInit.isOk = false ∨ env.browse.isOk = false) := by
  cases hd : env.daemonInit with
  | error e =>
      unfold discover_server
      rw [hd]
      simp [Except.isOk, Except.toBool]
  | ok u =>
      cases hb : env.browse with
      | error e =>
          unfold discover_server
          rw [hd, hb]
          simp [Except.isOk, Except.toBool]
      | ok v =>
          unfold discover_server
          rw [hd, hb]
          simp [Except.isOk, Except.toBool]

/-- C6: with every receive bounded by the 300 ms cap of
`recv_timeout(Duration::from_millis(300))`, the call finishes no later
than `timeout_ms + 300` milliseconds after its start, for any timeout
(the default 2500 included). -/
theorem claim_C6_deadline_plus_slice (env : Env) (t : Option Nat)
    (hcap : ∀ p ∈ env.trace, p.1 ≤ 300) :
    (discover_server env t).finishTime ≤ env.startTime + t.getD 2500 + 300 := by
  cases hd : env.daemonInit with
  | error e =>
      unfold discover_server
      rw [hd]
      simp
      omega
  | ok u =>
      cases hb : env.browse with
      | error e =>
          unfold discover_server
          rw [hd, hb]
          simp
          omega
      | ok v =>
          rw [discover_server_ok env t hd hb]
          have := pollLoop_time_bound (env.startTime + t.getD 2500) env.trace
            env.startTime hcap (by omega)
          simp only []
          omega

theorem claim_C6_witness :
    (∀ p ∈ envCap.trace, p.1 ≤ 300) ∧
    (discover_server envCap (some 500)).finishTime
      ≤ envCap.startTime + (some 500 : Option Nat).getD 2500 + 300 :=
  ⟨by decide, claim_C6_deadline_plus_slice envCap (some 500) (by decide)⟩

/-- C7: an absent `timeout_ms` behaves exactly as `timeout_ms = 2500`:
the two calls are indistinguishable in every observable, deadline
included. -/
theorem claim_C7_default_2500 (env : Env) :
    discover_server env none = discover_server env (some 2500) := rfl

/-- The found-result of the loop does not depend on the clock origin,
only on the timeout span and the event stream. -/
theorem pollLoop_startTime_irrelevant (T : Nat) (tr : List RecvStep) (s : Nat) :
    (pollLoop (s + T) s tr).1 = (pollLoop T 0 tr).1 := by
  have h := pollLoop_shift s tr T 0
  rw [Nat.zero_add] at h
  rw [Nat.add_comm s T, h]

/-- C8: the call is deterministic in the delivered event order: two runs
with the same initialization outcomes and the same event stream return
the same result even from different clock origins; and when two
`ServiceResolved` events are delivered, the result equals the first
one. -/
theorem claim_C8_deterministic_first_wins :
    (∀ env₁ env₂ : Env, ∀ t : Option Nat,
       env₁.daemonInit = env₂.daemonInit →
       env₁.browse = env₂.browse →
       env₁.trace = env₂.trace →
       (discover_server env₁ t).ret = (discover_server env₂ t).ret) ∧
    (∀ env : Env, ∀ t : Option Nat,
       ∀ pre mid rest : List RecvStep, ∀ d₁ d₂ : Nat,
       ∀ info₁ info₂ : ServiceInfo,
       env.daemonInit = .ok () → env.browse = .ok () →
       env.trace = pre ++ (d₁, .ok (.ServiceResolved info₁))
         :: (mid ++ (d₂, .ok (.ServiceResolved info₂)) :: rest) →
       (∀ p ∈ pre, p.2.isResolved = false) →
       (∀ k, k ≤ pre.length →
         env.startTime + elapsed (pre.take k) < env.startTime + t.getD 2500) →
       (discover_server env t).ret
         = .ok (some ⟨resolvedHost info₁, info₁.port⟩)) := by
  constructor
  · intro env₁ env₂ t h1 h2 h3
    cases hd : env₁.daemonInit with
    | error e =>
        have hd2 : env₂.daemonInit = .error e := by rw [← h1, hd]
        unfold discover_server
        rw [hd, hd2]
    | ok u =>
        obtain ⟨⟩ := u
        have hd2 : env₂.daemonInit = .ok () := by rw [← h1, hd]
        cases hb : env₁.browse with
        | error e =>
            have hb2 : env₂.browse = .error e := by rw [← h2, hb]
            unfold discover_server
            rw [hd, hd2, hb, hb2]
        | ok v =>
            obtain ⟨⟩ := v
            have hb2 : env₂.browse = .ok () := by rw [← h2, hb]
            rw [discover_server_ok env₁ t hd hb,
              discover_server_ok env₂ t hd2 hb2]
            show Except.ok
                (pollLoop (env₁.startTime + t.getD 2500) env₁.startTime
                  env₁.trace).1
              = Except.ok
                (pollLoop (env₂.startTime + t.getD 2500) env₂.startTime
                  env₂.trace).1
            rw [h3,
              pollLoop_startTime_irrelevant (t.getD 2500) env₂.trace env₁.startTime,
              pollLoop_startTime_irrelevant (t.getD 2500) env₂.trace env₂.startTime]
  · intro env t pre mid rest d₁ d₂ info₁ info₂ h1 h2 htrace hpre hreach
    rw [discover_server_ok env t h1 h2]
    rw [htrace, pollLoop_first_resolved _ info₁ d₁ _ pre _ hpre hreach]

theorem claim_C8_witness :
    (envShiftA.daemonInit = envShiftB.daemonInit ∧
     envShiftA.browse = envShiftB.browse ∧
     envShiftA.trace = envShiftB.trace ∧
     (discover_server envShiftA (some 1000)).ret
       = (discover_server envShiftB (some 1000)).ret) ∧
    (envTwoResolved.daemonInit = .ok () ∧
     envTwoResolved.browse = .ok () ∧
     envTwoResolved.trace
       = [(100, .ok (.ServiceFound "_clubscore._tcp.local." "a._clubscore._tcp.local."))]
         ++ (50, .ok (.ServiceResolved infoAddr))
         :: ([] ++ (10, .ok (.ServiceResolved infoHost)) :: []) ∧
     (∀ p ∈ [((100 : Nat), RecvOutcome.ok
         (.ServiceFound "_clubscore._tcp.local." "a._clubscore._tcp.local."))],
         p.2.isResolved = false) ∧
     (∀ k, k ≤ ([((100 : Nat), RecvOutcome.ok
           (.ServiceFound "_clubscore._tcp.local." "a._clubscore._tcp.local."))]).length →
         envTwoResolved.startTime
           + elapsed (([((100 : Nat), RecvOutcome.ok
               (.ServiceFound "_clubscore._tcp.local." "a._clubscore._tcp.local."))]).take k)
           < envTwoResolved.startTime + (some 2500 : Option Nat).getD 2500) ∧
     (discover_server envTwoResolved (some 2500)).ret
       = .ok (some ⟨"10.0.0.5", 4123⟩)) :=
  ⟨⟨rfl, rfl, rfl,
    claim_C8_deterministic_first_wins.1 envShiftA envShiftB (some 1000) rfl rfl rfl⟩,
   rfl, rfl, rfl, by decide, by decide,
   claim_C8_deterministic_first_wins.2 envTwoResolved (some 2500)
     [(100, .ok (.ServiceFound "_clubscore._tcp.local." "a._clubscore._tcp.local."))]
     [] [] 50 10 infoAddr infoHost rfl rfl rfl (by decide) (by decide)⟩

/-- C9: with a zero timeout (and successful initialization) the deadline
equals the invocation time, so the loop body never runs: the call
returns `Ok(None)` having consumed no event, even when a
`ServiceResolved` event is already waiting. -/
theorem claim_C9_zero_timeout (env : Env)
    (h1 : env.daemonInit = .ok ()) (h2 : env.browse = .ok ()) :
    discover_server env (some 0)
      = ⟨.ok none, true, env.startTime, env.trace⟩ := by
  rw [discover_server_ok env (some 0) h1 h2,
    pollLoop_stop (env.startTime + (some 0 : Option Nat).getD 2500)
      env.startTime env.trace (by simp)]

theorem claim_C9_witness :
    envReady.daemonInit = .ok () ∧
    envReady.browse = .ok () ∧
    discover_server envReady (some 0)
      = ⟨.ok none, true, envReady.startTime, envReady.trace⟩ :=
  ⟨rfl, rfl, claim_C9_zero_timeout envReady rfl rfl⟩

/-- C10: the `Err(_) => {}` arm treats every receive failure alike — a
per-wait timeout and a disconnected channel are handled identically —
and a run whose receives all fail still ends in `Ok(None)`, never an
error. -/
theorem claim_C10_recv_errors_ignored :
    (∀ deadline now d : Nat, ∀ e₁ e₂ : RecvErr, ∀ rest : List RecvStep,
       now < deadline →
       pollLoop deadline now ((d, .err e₁) :: rest)
         = pollLoop deadline now ((d, .err e₂) :: rest)) ∧
    (∀ env : Env, ∀ t : Option Nat,
       env.daemonInit = .ok () → env.browse = .ok () →
       (∀ p ∈ env.trace, p.2.isErr = true) →
       (discover_server env t).ret = .ok none) := by
  constructor
  · intro deadline now d e₁ e₂ rest h0
    rw [pollLoop_skip deadline now d (.err e₁) rest h0 rfl,
      pollLoop_skip deadline now d (.err e₂) rest h0 rfl]
  · intro env t h1 h2 herr
    rw [discover_server_ok env t h1 h2]
    have hlate : ∀ k, k < env.trace.length →
        (env.trace.getD k padStep).2.isResolved = true →
        env.startTime + t.getD 2500
          ≤ env.startTime + elapsed (env.trace.take k) := by
      intro k hk hres
      have hmem := getD_mem env.trace k hk
      have hfalse := isResolved_of_isErr _ (herr _ hmem)
      rw [hfalse] at hres
      exact absurd hres (by simp)
    have hnone := pollLoop_none_of_late_resolved
      (env.startTime + t.getD 2500) env.trace env.startTime hlate
    simp [hnone]

theorem claim_C10_witness :
    ((0 : Nat) < 700 ∧
     pollLoop 700 0 ((300, .err .timeout) :: [(300, .err .disconnected)])
       = pollLoop 700 0 ((300, .err .disconnected) :: [(300, .err .disconnected)])) ∧
    (envAllErr.daemonInit = .ok () ∧
     envAllErr.browse = .ok () ∧
     (∀ p ∈ envAllErr.trace, p.2.isErr = true) ∧
     (discover_server envAllErr (some 700)).ret = .ok none) :=
  ⟨⟨by decide,
    claim_C10_recv_errors_ignored.1 700 0 300 .timeout .disconnected
      [(300, .err .disconnected)] (by decide)⟩,
   rfl, rfl, by decide,
   claim_C10_recv_errors_ignored.2 envAllErr (some 700) rfl rfl (by decide)⟩

end ClubScore
